import Mathlib

/-!
Shallow embedding of the IW-App relay pipeline (src/app.py and src/main.py)
and proofs about its quota tracking, idempotency, webhook parsing, chunking
and dispatch behaviour.  Machine integers are modelled as Nat, Redis state as
explicit record passing, fallible Python code as Except, and the external
world (filesystem, HTTP responses) as explicit environment records.
-/

/-! ## Small string helpers (List Char based, so everything kernel-reduces) -/

/-- A single apostrophe character, as a string. -/
def apo : String := String.singleton (Char.ofNat 39)

/-- Rebuild a string from its character list. -/
def ofChars (cs : List Char) : String := String.mk cs

/-- Whether `needle` occurs inside `hay` as a contiguous run (Python `in` on str). -/
def infixOf (needle : List Char) : List Char → Bool
  | [] => needle.isEmpty
  | c :: rest => needle.isPrefixOf (c :: rest) || infixOf needle rest

/-- Python `str.split(sep)` with a one-character separator. -/
def pySplit (sep : Char) : List Char → List (List Char)
  | [] => [[]]
  | c :: rest =>
    let r := pySplit sep rest
    if c = sep then [] :: r
    else
      match r with
      | h :: t => (c :: h) :: t
      | [] => [[c]]

/-- Python `str.strip(c)`: drop the character from both ends. -/
def pyStripChar (c : Char) (cs : List Char) : List Char :=
  ((cs.dropWhile (· = c)).reverse.dropWhile (· = c)).reverse

/-- Python `str.strip()`: drop whitespace from both ends. -/
def pyStripWs (cs : List Char) : List Char :=
  ((cs.dropWhile Char.isWhitespace).reverse.dropWhile Char.isWhitespace).reverse

/-- Helper for `pyTitle`: the Bool records whether the previous char was alphabetic. -/
def pyTitleAux : Bool → List Char → List Char
  | _, [] => []
  | prevAlpha, c :: rest =>
    if c.isAlpha then
      (if prevAlpha then c.toLower else c.toUpper) :: pyTitleAux true rest
    else c :: pyTitleAux false rest

/-- Python `str.title()` restricted to alphabetic word detection. -/
def pyTitle (cs : List Char) : List Char := pyTitleAux false cs

/-- The extension filter of `send_document` (src/app.py line 75-76):
`any(file_path.lower().endswith(ext) for ext in set-with-.pdf)`. -/
def endsWithPdf (p : String) : Bool :=
  ".pdf".data.isSuffixOf (p.data.map Char.toLower)

/-! ## Python values, as delivered in webhook JSON bodies -/

/-- A Python value as it appears in a decoded webhook body.  Dict keys are
strings, matching JSON object keys. -/
inductive PyVal where
  | pyNone
  | pyBool (b : Bool)
  | pyInt (n : Int)
  | pyStr (s : String)
  | pyList (xs : List PyVal)
  | pyDict (entries : List (String × PyVal))

/-- The Python exceptions that the embedded webhook code can raise. -/
inductive PyErr where
  | attributeError
  | keyError
  | indexError
  | typeError
deriving DecidableEq

/-- First binding of a key in a dict entry list. -/
def lookupD : List (String × PyVal) → String → Option PyVal
  | [], _ => none
  | (k, v) :: rest, key => if k = key then some v else lookupD rest key

/-- Python truthiness of a value. -/
def pyTruthy : PyVal → Bool
  | .pyNone => false
  | .pyBool b => b
  | .pyInt n => n != 0
  | .pyStr s => !s.data.isEmpty
  | .pyList xs => !xs.isEmpty
  | .pyDict es => !es.isEmpty

/-- Python `v.get(key, default)`: raises AttributeError unless `v` is a dict. -/
def pyGet : PyVal → String → PyVal → Except PyErr PyVal
  | .pyDict es, k, dflt => .ok ((lookupD es k).getD dflt)
  | _, _, _ => .error .attributeError

/-- Python `v[key]` with a string key: KeyError on a dict missing the key,
TypeError on anything that is not a dict. -/
def pySubStr : PyVal → String → Except PyErr PyVal
  | .pyDict es, k =>
    match lookupD es k with
    | some v => .ok v
    | none => .error .keyError
  | _, _ => .error .typeError

/-- Python `v[0]`: head of a list, first character of a string, KeyError on a
string-keyed dict, TypeError otherwise. -/
def pyIndex0 : PyVal → Except PyErr PyVal
  | .pyList [] => .error .indexError
  | .pyList (x :: _) => .ok x
  | .pyStr s =>
    match s.data with
    | [] => .error .indexError
    | c :: _ => .ok (.pyStr (ofChars [c]))
  | .pyDict _ => .error .keyError
  | _ => .error .typeError

/-- Python `needle in v` for a string needle: substring test on str, element
equality on list, key membership on dict, TypeError otherwise. -/
def pyContains (needle : String) : PyVal → Except PyErr Bool
  | .pyStr s => .ok (infixOf needle.data s.data)
  | .pyList xs => .ok (xs.any (fun x => match x with | .pyStr t => t == needle | _ => false))
  | .pyDict es => .ok (es.any (fun kv => kv.1 == needle))
  | _ => .error .typeError

/-- Python repr of a value, used by str() on non-string values and inside
containers. -/
def pyRepr : PyVal → String
  | .pyNone => "None"
  | .pyBool b => if b then "True" else "False"
  | .pyInt n => toString n
  | .pyStr s => apo ++ s ++ apo
  | .pyList xs => "[" ++ String.intercalate ", " (xs.attach.map (fun x => pyRepr x.1)) ++ "]"
  | .pyDict es =>
    "\x7b" ++ String.intercalate ", "
      (es.attach.map (fun kv => apo ++ kv.1.1 ++ apo ++ ": " ++ pyRepr kv.1.2)) ++ "\x7d"
decreasing_by
  · have h := List.sizeOf_lt_of_mem x.2
    simp only [PyVal.pyList.sizeOf_spec]
    omega
  · have h := List.sizeOf_lt_of_mem kv.2
    have h2 : sizeOf kv.1.2 < sizeOf kv.1 := by
      obtain ⟨⟨a, b⟩, hm⟩ := kv
      simp only [Prod.mk.sizeOf_spec]
      omega
    simp only [PyVal.pyDict.sizeOf_spec]
    omega

/-- Python `str(v)` as used by f-string interpolation of Redis keys and
message fields. -/
def pyStrOf : PyVal → String
  | .pyStr s => s
  | v => pyRepr v

/-- The Python type name of a value, as it appears in error messages. -/
def pyTypeName : PyVal → String
  | .pyNone => "NoneType"
  | .pyBool _ => "bool"
  | .pyInt _ => "int"
  | .pyStr _ => "str"
  | .pyList _ => "list"
  | .pyDict _ => "dict"

/-! ## Redis state (src/app.py lines 29, 41-51, 147-153)

Keys `whatsapp_count:u` are modelled by the map `quota` keyed on `u` together
with their absolute expiry instant in `quotaExpiry`; keys
`processed_message:id` are modelled by `processed`, mapping the id to the
absolute expiry instant of the record.  A key whose expiry instant is not in
the future counts as absent, which is how Redis behaves. -/

structure Redis where
  quota : String → Option Nat
  quotaExpiry : String → Option Nat
  processed : String → Option Nat

/-- Pointwise update of one key of a string-keyed map. -/
def upd (f : String → Option Nat) (k : String) (v : Option Nat) : String → Option Nat :=
  fun x => if x = k then v else f x

/-- Redis state with no keys at all. -/
def freshRedis : Redis :=
  { quota := fun _ => none, quotaExpiry := fun _ => none, processed := fun _ => none }

/-- The stored count of a quota key if it is live at instant `now`. -/
def redisLiveCount (r : Redis) (now : Nat) (u : String) : Option Nat :=
  match r.quota u, r.quotaExpiry u with
  | some c, some e => if now < e then some c else none
  | some c, none => some c
  | none, _ => none

/-- src/app.py lines 41-43: `int(count) if count else 0`. -/
def get_user_message_count (r : Redis) (now : Nat) (u : String) : Nat :=
  (redisLiveCount r now u).getD 0

/-- src/app.py lines 45-48: `redis_client.incr(key)` followed by
`redis_client.expire(key, 24 * 60 * 60)`.  INCR revives an expired key at 1,
and EXPIRE overwrites whatever time-to-live the key had. -/
def increment_user_message_count (r : Redis) (now : Nat) (u : String) : Redis :=
  { r with
    quota := upd r.quota u (some ((redisLiveCount r now u).getD 0 + 1)),
    quotaExpiry := upd r.quotaExpiry u (some (now + 24 * 60 * 60)) }

/-- src/app.py lines 50-51. -/
def can_send_media (r : Redis) (now : Nat) (u : String) : Bool :=
  decide (get_user_message_count r now u < 12)

/-- src/app.py lines 147-149: a processed record exists and is still live. -/
def is_processed_message (r : Redis) (now : Nat) (id : String) : Bool :=
  match r.processed id with
  | some e => decide (now < e)
  | none => false

/-- src/app.py lines 151-153: `setex` with a 3600 second time to live. -/
def mark_message_processed (r : Redis) (now : Nat) (id : String) : Redis :=
  { r with processed := upd r.processed id (some (now + 3600)) }

/-! ## Outbound dispatcher (src/app.py lines 53-145) -/

/-- Observable external calls made by the pipeline. -/
inductive Act where
  | fetchPage (url : String)
  | fetchImage (url : String)
  | sendTextMsg (dest msg : String)
  | uploadMedia
  | sendDoc (dest : String)
deriving DecidableEq

/-- Whether an action is a phase-2 document send. -/
def isSendDocAct : Act → Bool
  | .sendDoc _ => true
  | _ => false

/-- The external world as `send_document` observes it: the filesystem state of
the file it is asked to send, and the two platform HTTP responses (upload,
then reference send). -/
structure SendEnv where
  fileExists : Bool
  fileSize : Nat
  uploadStatus : Nat
  uploadText : String
  uploadMediaId : Option String
  sendStatus : Nat
  sendRespText : String

/-- What one `send_document` call produced: the `(bool, detail)` pair it
returned, the Redis state afterwards, and the platform calls it made. -/
structure SendOutcome where
  result : Bool × String
  redis : Redis
  actions : List Act

/-- Python falsiness of `upload_response.json().get("id")`. -/
def mediaIdFalsy : Option String → Bool
  | none => true
  | some s => s.data.isEmpty

/-- The refusal detail of src/app.py line 79. -/
def limitMsg : String := "Daily media message limit reached (12/24hrs)"

/-- src/app.py lines 74-145, `WhatsAppFileSender.send_document`.  The
extension check precedes the `try` block, so its raise propagates (`.error`);
every raise inside the `try` is caught and turned into `(False, str(e))`.
The per-user counter is incremented exactly in the branch where the
reference-send response has status 200. -/
def send_document (env : SendEnv) (r : Redis) (now : Nat)
    (recipient file_path caption : String) : Except String SendOutcome :=
  if ¬ endsWithPdf file_path then .error "Invalid file type"
  else if ¬ can_send_media r now recipient then
    .ok { result := (false, limitMsg), redis := r, actions := [] }
  else if ¬ env.fileExists then
    .ok { result := (false, "File not found: " ++ file_path), redis := r, actions := [] }
  else if env.fileSize > 100 * 1024 * 1024 then
    .ok { result := (false, "File size exceeds WhatsApp" ++ apo ++ "s 100MB limit"),
          redis := r, actions := [] }
  else if env.uploadStatus ≠ 200 then
    .ok { result := (false, "Failed to upload document: " ++ env.uploadText),
          redis := r, actions := [.uploadMedia] }
  else if mediaIdFalsy env.uploadMediaId then
    .ok { result := (false, "No media ID received in upload response"),
          redis := r, actions := [.uploadMedia] }
  else if env.sendStatus = 200 then
    .ok { result := (true, "Success"),
          redis := increment_user_message_count r now recipient,
          actions := [.uploadMedia, .sendDoc recipient] }
  else
    .ok { result := (false, "Failed to send: " ++ env.sendRespText),
          redis := r, actions := [.uploadMedia, .sendDoc recipient] }

/-- Repeated calls of `send_document` for one recipient with a fixed
environment, collecting each `(bool, detail)` result.  The unused `caption`
argument of each call is the empty string. -/
def runSends (env : SendEnv) (now : Nat) (u p : String) :
    Nat → Redis → List (Bool × String) × Redis
  | 0, r => ([], r)
  | n + 1, r =>
    match send_document env r now u p "" with
    | .ok o =>
      let rest := runSends env now u p n o.redis
      (o.result :: rest.1, rest.2)
    | .error _ => ([], r)

/-! ## Pipeline orchestrator for one chapter (src/app.py lines 163-263) -/

/-- The external world as `process_manga_chapter` observes it: the ordered
`src` attributes parsed from the listing page (the BeautifulSoup selector is
an external collaborator), the HTTP response each image URL yields
(status code and body), and the platform responses for the final
`send_document` call. -/
structure ChapterEnv where
  listingImages : List String
  imageDownload : String → Nat × List Nat
  sendEnv : SendEnv

/-- src/app.py lines 176-178: `url.strip('/').split('/')`, negative indexing,
`.replace('-', ' ').title()`.  A non-string url raises AttributeError at
`.strip`, a short url raises IndexError at `[-2]`; both are caught by the
surrounding handler, which reports `str(e)`.  Returns
(url string, manga title, chapter number). -/
def parseChapter : PyVal → Except String (String × String × String)
  | .pyStr u =>
    match (pySplit '/' (pyStripChar '/' u.data)).reverse with
    | numCs :: titleCs :: _ =>
      .ok (u, ofChars (pyTitle (titleCs.map (fun c => if c = '-' then ' ' else c))),
           ofChars numCs)
    | _ => .error "list index out of range"
  | v =>
    .error (apo ++ pyTypeName v ++ apo ++ " object has no attribute " ++ apo ++ "strip" ++ apo)

/-- src/app.py lines 204-211: the sequential download loop.  Only responses
with status 200 are appended; any other status is skipped and the loop
continues with the remaining images. -/
def downloadImages (env : ChapterEnv) : List String → List (List Nat)
  | [] => []
  | src :: rest =>
    let resp := env.imageDownload src
    if resp.1 = 200 then resp.2 :: downloadImages env rest
    else downloadImages env rest

/-- The quota-exhausted text of src/app.py lines 168-171. -/
def quotaText : String :=
  "You" ++ apo ++ "ve reached your daily limit of 12 media messages. Please try again after 24 hours."

/-- The empty-listing text of src/app.py line 192. -/
def noImagesMsg : String := "No images found in this chapter."

/-- src/app.py lines 163-263, `process_manga_chapter`.  Image decoding by PIL
is modelled as succeeding on downloaded bytes; the PDF file exists exactly
when at least one image was downloaded (lines 218-231 save it only when
`first_image` is set).  Returns the Redis state after the run and the ordered
external calls it made. -/
def process_manga_chapter (env : ChapterEnv) (now : Nat) (r : Redis)
    (url sender : PyVal) : Redis × List Act :=
  let snd := pyStrOf sender
  if ¬ can_send_media r now snd then
    (r, [.sendTextMsg snd quotaText])
  else
    match parseChapter url with
    | .error e => (r, [.sendTextMsg snd ("Error processing chapter: " ++ e)])
    | .ok (u, title, num) =>
      let baseActs : List Act :=
        [.sendTextMsg snd ("Starting to process " ++ title ++ " Chapter " ++ num),
         .fetchPage u]
      if env.listingImages.isEmpty then
        (r, baseActs ++ [.sendTextMsg snd noImagesMsg])
      else
        let dlActs := env.listingImages.map Act.fetchImage
        let images_data := downloadImages env env.listingImages
        let pdf := "temp_manga/" ++ title ++ "_Chapter_" ++ num ++ ".pdf"
        let env2 : SendEnv := { env.sendEnv with fileExists := !images_data.isEmpty }
        match send_document env2 r now snd pdf (title ++ " - Chapter " ++ num) with
        | .error e =>
          (r, baseActs ++ dlActs ++ [.sendTextMsg snd ("Error processing chapter: " ++ e)])
        | .ok o =>
          if o.result.1 then
            (o.redis, baseActs ++ dlActs ++ o.actions ++
              [.sendTextMsg snd
                ("Successfully sent " ++ title ++ " Chapter " ++ num ++ " as PDF file.\nYou have "
                  ++ toString ((12 : Int) - (get_user_message_count o.redis now snd : Int))
                  ++ " media messages remaining today.")])
          else
            (o.redis, baseActs ++ dlActs ++ o.actions ++
              [.sendTextMsg snd ("Failed to send PDF file: " ++ o.result.2)])

/-! ## Webhook endpoint (src/app.py lines 265-315) -/

/-- The URL marker of src/app.py line 300. -/
def lekNeedle : String := "lekmanga.net/manga/"

/-- src/app.py lines 267-311, the body of the `try` block of the POST
handler.  Each Python subscript or `.get` that can raise is threaded through
`Except`; an uncaught exception reaches the outer handler (line 313). -/
def webhookCore (env : ChapterEnv) (now : Nat) (r : Redis) (data : PyVal) :
    Except PyErr (Nat × Redis × List Act) :=
  match pyGet data "entry" (.pyList []) with
  | .error e => .error e
  | .ok entryCheck =>
  if ¬ pyTruthy entryCheck then .ok (200, r, []) else
  match pySubStr data "entry" with
  | .error e => .error e
  | .ok entryList =>
  match pyIndex0 entryList with
  | .error e => .error e
  | .ok entry =>
  match pyGet entry "changes" (.pyList []) with
  | .error e => .error e
  | .ok changesCheck =>
  if ¬ pyTruthy changesCheck then .ok (200, r, []) else
  match pySubStr entry "changes" with
  | .error e => .error e
  | .ok changesList =>
  match pyIndex0 changesList with
  | .error e => .error e
  | .ok change =>
  match pyGet change "value" (.pyDict []) with
  | .error e => .error e
  | .ok value =>
  match pyGet value "messages" (.pyList []) with
  | .error e => .error e
  | .ok messagesCheck =>
  if ¬ pyTruthy messagesCheck then .ok (200, r, []) else
  match pySubStr value "messages" with
  | .error e => .error e
  | .ok messagesList =>
  match pyIndex0 messagesList with
  | .error e => .error e
  | .ok message =>
  match pyGet message "id" .pyNone with
  | .error e => .error e
  | .ok mid =>
  if pyTruthy mid && is_processed_message r now (pyStrOf mid) then .ok (200, r, []) else
  match pyGet message "from" .pyNone with
  | .error e => .error e
  | .ok sender =>
  match pyGet message "type" .pyNone with
  | .error e => .error e
  | .ok mtype =>
  match mtype with
  | .pyStr ty =>
    if ty = "text" then
      match pySubStr message "text" with
      | .error e => .error e
      | .ok textField =>
      match pySubStr textField "body" with
      | .error e => .error e
      | .ok textv =>
      match pyContains lekNeedle textv with
      | .error e => .error e
      | .ok hasLek =>
      if hasLek then
        let r2 := if pyTruthy mid then mark_message_processed r now (pyStrOf mid) else r
        let res := process_manga_chapter env now r2 textv sender
        .ok (200, res.1, res.2)
      else
        .ok (200, r,
          [.sendTextMsg (pyStrOf sender) "Please send a valid lekmanga.net manga chapter URL."])
    else .ok (200, r, [])
  | _ => .ok (200, r, [])

/-- src/app.py lines 265-315: the POST handler.  A caught exception answers
with status 500 (line 315); every raise point precedes the first external
effect or Redis write, so the state and action log are unchanged there. -/
def webhook (env : ChapterEnv) (now : Nat) (r : Redis) (data : PyVal) :
    Nat × Redis × List Act :=
  match webhookCore env now r data with
  | .ok res => res
  | .error _ => (500, r, [])

/-- The nesting that the platform actually delivers: one entry, one change,
one message carrying id, from, type and a text payload. -/
def mkWebhookBody (mid sender mtype : String) (textField : PyVal) : PyVal :=
  let message : PyVal := .pyDict
    [("id", .pyStr mid), ("from", .pyStr sender), ("type", .pyStr mtype),
     ("text", textField)]
  let value : PyVal := .pyDict [("messages", .pyList [message])]
  let change : PyVal := .pyDict [("value", value)]
  let entry : PyVal := .pyDict [("changes", .pyList [change])]
  .pyDict [("entry", .pyList [entry])]

/-! ## The web-proxy variant (src/main.py) -/

/-- The names bound at module level in src/main.py (its imports on lines 1-8
and its top-level definitions).  `datetime` is absent: the module never
imports it, and it is not a Python builtin. -/
def mainModuleNames : List String :=
  ["Flask", "request", "requests", "BeautifulSoup", "json", "base64", "re", "os",
   "urlparse", "urljoin", "app", "VERIFY_TOKEN", "WhatsAppClient", "WebProxy",
   "verify_webhook", "webhook"]

/-- src/main.py line 116: evaluating `datetime.now()` resolves the name
`datetime` in the module namespace; an unbound name raises NameError. -/
def datetimeNow (nowStr : String) : Except String String :=
  if mainModuleNames.contains "datetime" then .ok nowStr
  else .error ("name " ++ apo ++ "datetime" ++ apo ++ " is not defined")

/-- src/main.py line 88: `self.chunk_size = 1000 * 1024`. -/
def chunk_size : Nat := 1000 * 1024

/-- src/main.py lines 121-122: the chunking list comprehension
`[serialized[i:i + k] for i in range(0, len(serialized), k)]`,
generalised over the element type of the sliced sequence. -/
def pyChunksList (k : Nat) (xs : List α) : List (List α) :=
  (List.range' 0 ((xs.length + k - 1) / k) k).map (fun i => (xs.drop i).take k)

/-- Minimal JSON string escaping (quote and backslash). -/
def jsonEscape (s : String) : String :=
  ofChars (s.data.foldr (fun c acc =>
    if c = '"' ∨ c = '\\' then '\\' :: c :: acc else c :: acc) [])

/-- A JSON string literal. -/
def jsonStr (s : String) : String := "\"" ++ jsonEscape s ++ "\""

/-- `json.dumps` of the page_data dict of src/main.py lines 112-117. -/
def jsonDumpsPage (url title content ts : String) : String :=
  "\x7b\"url\": " ++ jsonStr url ++ ", \"title\": " ++ jsonStr title ++
    ", \"content\": " ++ jsonStr content ++ ", \"timestamp\": " ++ jsonStr ts ++ "\x7d"

/-- `json.dumps` of the error dict of src/main.py line 127. -/
def jsonErrObj (msg : String) : String := "\x7b\"error\": " ++ jsonStr msg ++ "\x7d"

/-- The external world as `process_webpage` observes it: whether the page
fetch raises, and the title, transformed content and current time the
success path would use. -/
structure PageEnv where
  fetchErr : Option String
  pageTitle : Option String
  pageContent : String
  nowStr : String

/-- src/main.py lines 92-124, the body of the `try` block of
`process_webpage`.  The script/style removal and image inlining only rewrite
`pageContent` and never raise (each image is wrapped in its own
try/except). -/
def processWebpageBody (env : PageEnv) (url : String) : Except String (List String) :=
  match env.fetchErr with
  | some e => .error e
  | none =>
    match datetimeNow env.nowStr with
    | .error e => .error e
    | .ok ts =>
      let serialized := jsonDumpsPage url (env.pageTitle.getD "Untitled") env.pageContent ts
      .ok ((pyChunksList chunk_size serialized.data).map ofChars)

/-- src/main.py lines 90-127, `WebProxy.process_webpage`: any exception in
the body is caught and turned into a one-element error-chunk list. -/
def process_webpage (env : PageEnv) (url : String) : List String :=
  match processWebpageBody env url with
  | .ok chunks => chunks
  | .error e => [jsonErrObj e]

/-- One outbound chunk document of src/main.py lines 139-158, with the
metadata fields the loop attaches to it. -/
structure SentDoc where
  chunk_index : Nat
  total_chunks : Nat
  url : String
  data : String
  filename : String
  caption : String

/-- Helper for `buildChunkMsgs`: the running index of `enumerate`. -/
def buildChunkMsgsAux (url : String) (total : Nat) : Nat → List String → List SentDoc
  | _, [] => []
  | i, c :: rest =>
    { chunk_index := i, total_chunks := total, url := url, data := c,
      filename := "webpage_chunk_" ++ toString i ++ ".json",
      caption := "Chunk " ++ toString (i + 1) ++ " of " ++ toString total } ::
      buildChunkMsgsAux url total (i + 1) rest

/-- src/main.py lines 139-158: `for i, chunk in enumerate(chunks)` building
one outbound document per chunk, carrying chunk_index and total_chunks. -/
def buildChunkMsgs (url : String) (chunks : List String) : List SentDoc :=
  buildChunkMsgsAux url chunks.length 0 chunks

/-- src/main.py lines 129-162, `WebProxy.handle_command`: returns the status
text and the ordered documents sent. -/
def handle_command (env : PageEnv) (command : String) : String × List SentDoc :=
  if "fetch:".data.isPrefixOf command.data then
    let url0 := ofChars (pyStripWs (command.data.drop 6))
    let url :=
      if "http://".data.isPrefixOf url0.data || "https://".data.isPrefixOf url0.data then url0
      else "https://" ++ url0
    let chunks := process_webpage env url
    ("Sent webpage in " ++ toString chunks.length ++ " chunks. Use your browser app to view.",
      buildChunkMsgs url chunks)
  else
    ("Unknown command. Use " ++ apo ++ "fetch:URL" ++ apo ++ " to request a webpage.", [])

/-- src/main.py lines 183-199, the body of the `try` block of the POST
handler: the nested extraction, then command handling.  Outbound platform
calls are modelled as succeeding; a non-string command raises AttributeError
at `.startswith`.  Returns (documents sent, text messages sent). -/
def mainWebhookBody (env : PageEnv) (data : PyVal) :
    Except PyErr (List SentDoc × List (String × String)) :=
  match pySubStr data "entry" with
  | .error e => .error e
  | .ok entries =>
  match pyIndex0 entries with
  | .error e => .error e
  | .ok entry =>
  match pySubStr entry "changes" with
  | .error e => .error e
  | .ok changes =>
  match pyIndex0 changes with
  | .error e => .error e
  | .ok change =>
  match pySubStr change "value" with
  | .error e => .error e
  | .ok value =>
  match pySubStr value "messages" with
  | .error e => .error e
  | .ok messages =>
  match pyIndex0 messages with
  | .error e => .error e
  | .ok message =>
  match pySubStr message "from" with
  | .error e => .error e
  | .ok userId =>
  match pyContains "text" message with
  | .error e => .error e
  | .ok hasText =>
  if hasText then
    match pySubStr message "text" with
    | .error e => .error e
    | .ok textField =>
    match pySubStr textField "body" with
    | .error e => .error e
    | .ok body =>
    match body with
    | .pyStr command =>
      let res := handle_command env command
      .ok (res.2, [(pyStrOf userId, res.1)])
    | _ => .error .attributeError
  else .ok ([], [])

/-- src/main.py lines 180-204: the POST handler catches every exception and
always answers "OK". -/
def main_webhook (env : PageEnv) (data : PyVal) :
    String × List SentDoc × List (String × String) :=
  match mainWebhookBody env data with
  | .ok res => ("OK", res.1, res.2)
  | .error _ => ("OK", [], [])

/-! ## Concrete fixtures used by witnesses and counterexamples -/

/-- A platform environment in which every call succeeds. -/
def goodEnv : SendEnv :=
  { fileExists := true, fileSize := 1000, uploadStatus := 200, uploadText := "",
    uploadMediaId := some "m1", sendStatus := 200, sendRespText := "" }

/-- A platform environment whose file is just over the 100 MiB ceiling. -/
def bigEnv : SendEnv := { goodEnv with fileSize := 100 * 1024 * 1024 + 1 }

/-- A platform environment whose file is exactly at the 100 MiB ceiling. -/
def atLimitEnv : SendEnv := { goodEnv with fileSize := 100 * 1024 * 1024 }

/-- A chapter environment with an empty listing. -/
def cenv0 : ChapterEnv :=
  { listingImages := [], imageDownload := fun _ => (0, []), sendEnv := goodEnv }

/-- A chapter environment with one image URL whose download answers 404. -/
def cenvAllFail : ChapterEnv :=
  { listingImages := ["img1"], imageDownload := fun _ => (404, []), sendEnv := goodEnv }

/-- A chapter environment whose downloads succeed but whose assembled PDF is
over the 100 MiB ceiling. -/
def cenvBig : ChapterEnv :=
  { listingImages := ["a", "b"], imageDownload := fun _ => (200, [7]), sendEnv := bigEnv }

/-- Redis in which user u12 already stores a count of 12 with a live expiry. -/
def r12 : Redis :=
  { quota := fun x => if x = "u12" then some 12 else none,
    quotaExpiry := fun x => if x = "u12" then some 50 else none,
    processed := fun _ => none }

/-- Redis with one live processed record for event id m1, expiring at 100. -/
def rProcessed : Redis :=
  { quota := fun _ => none, quotaExpiry := fun _ => none,
    processed := fun x => if x = "m1" then some 100 else none }

/-- A page environment whose fetch succeeds. -/
def penv0 : PageEnv :=
  { fetchErr := none, pageTitle := none, pageContent := "c", nowStr := "t" }


/-! ## Derived definitions used by the proofs -/

/-- Structural version of the chunking comprehension: first `k + 1` elements,
then the chunks of the rest. -/
def chunksRec (k : Nat) : List α → List (List α)
  | [] => []
  | x :: xs => ((x :: xs).take (k + 1)) :: chunksRec k (xs.drop k)
termination_by xs => xs.length
decreasing_by
  simp only [List.length_drop, List.length_cons]
  omega

/-! ## Lemmas about the chunking comprehension -/


theorem chunksRec_nil (k : Nat) : chunksRec k ([] : List α) = [] := by
  rw [chunksRec]

theorem chunksRec_cons (k : Nat) (x : α) (xs : List α) :
    chunksRec k (x :: xs) = ((x :: xs).take (k + 1)) :: chunksRec k (xs.drop k) := by
  rw [chunksRec]

theorem chunksRec_flatten (k : Nat) : ∀ (xs : List α), (chunksRec k xs).flatten = xs
  | [] => by rw [chunksRec_nil]; rfl
  | x :: xs => by
    rw [chunksRec_cons, List.flatten_cons, chunksRec_flatten k (xs.drop k)]
    exact List.take_append_drop (k + 1) (x :: xs)
termination_by xs => xs.length
decreasing_by
  simp only [List.length_drop, List.length_cons]
  omega

theorem range'_eq_map_add (s m k : Nat) :
    List.range' s m k = (List.range' 0 m k).map (· + s) := by
  induction m generalizing s with
  | zero => rfl
  | succ m ih =>
    rw [List.range'_succ, List.range'_succ, ih (s + k), ih (0 + k)]
    simp only [List.map_cons, List.map_map, Nat.zero_add, List.cons.injEq]
    refine ⟨trivial, ?_⟩
    apply List.map_congr_left
    intro a _
    simp only [Function.comp_apply]
    omega

theorem pyChunksList_nil (k : Nat) : pyChunksList (k + 1) ([] : List α) = [] := by
  have h : ((List.length ([] : List α)) + (k + 1) - 1) / (k + 1) = 0 := by
    simp only [List.length_nil]
    apply Nat.div_eq_of_lt
    omega
  unfold pyChunksList
  rw [h]
  rfl

theorem pyChunksList_cons (k : Nat) (x : α) (xs : List α) :
    pyChunksList (k + 1) (x :: xs) =
      ((x :: xs).take (k + 1)) :: pyChunksList (k + 1) (xs.drop k) := by
  have hcount : ((x :: xs).length + (k + 1) - 1) / (k + 1) =
      ((xs.drop k).length + (k + 1) - 1) / (k + 1) + 1 := by
    simp only [List.length_cons, List.length_drop]
    rcases Nat.lt_or_ge xs.length (k + 1) with h | h
    · have h1 : xs.length - k = 0 := by omega
      have h2 : (xs.length + 1 + (k + 1) - 1) / (k + 1) = 1 := by
        apply Nat.div_eq_of_lt_le <;> omega
      rw [h1, h2]
      have h3 : (0 + (k + 1) - 1) / (k + 1) = 0 := by
        apply Nat.div_eq_of_lt
        omega
      rw [h3]
    · have h1 : xs.length + 1 + (k + 1) - 1 = (xs.length - k + (k + 1) - 1) + (k + 1) := by
        omega
      rw [h1, Nat.add_div_right _ (Nat.succ_pos k)]
  unfold pyChunksList
  rw [hcount, List.range'_succ, List.map_cons, List.drop_zero,
    range'_eq_map_add (0 + (k + 1)), List.map_map]
  congr 1
  apply List.map_congr_left
  intro a _
  simp only [Function.comp_apply, List.drop_drop]
  have h4 : a + (0 + (k + 1)) = (k + a) + 1 := by omega
  rw [h4]
  rfl

theorem pyChunksList_eq_chunksRec (k : Nat) :
    ∀ (xs : List α), pyChunksList (k + 1) xs = chunksRec k xs
  | [] => by rw [pyChunksList_nil, chunksRec_nil]
  | x :: xs => by
    rw [pyChunksList_cons, chunksRec_cons, pyChunksList_eq_chunksRec k (xs.drop k)]
termination_by xs => xs.length
decreasing_by
  simp only [List.length_drop, List.length_cons]
  omega

/-- Losslessness of the size-based slicing of src/main.py lines 121-122. -/
theorem pyChunksList_flatten (k : Nat) (hk : 0 < k) (xs : List α) :
    (pyChunksList k xs).flatten = xs := by
  obtain ⟨m, rfl⟩ : ∃ m, k = m + 1 := ⟨k - 1, by omega⟩
  rw [pyChunksList_eq_chunksRec, chunksRec_flatten]

/-! ## Lemmas about the quota counter and the dispatcher -/

theorem get_increment_self (r : Redis) (now : Nat) (u : String) :
    get_user_message_count (increment_user_message_count r now u) now u =
      get_user_message_count r now u + 1 := by
  unfold get_user_message_count increment_user_message_count redisLiveCount upd
  rcases hq : r.quota u with _ | k <;> rcases he : r.quotaExpiry u with _ | e <;>
    simp [hq, he] <;> split <;> simp_all <;> omega

theorem get_increment_other (r : Redis) (now : Nat) (u v : String) (hvu : v ≠ u) :
    get_user_message_count (increment_user_message_count r now u) now v =
      get_user_message_count r now v := by
  unfold get_user_message_count increment_user_message_count redisLiveCount upd
  simp only [if_neg hvu]

theorem get_increment_le (r : Redis) (now : Nat) (u v : String) :
    get_user_message_count r now v ≤
      get_user_message_count (increment_user_message_count r now u) now v := by
  by_cases hvu : v = u
  · subst hvu
    rw [get_increment_self]
    omega
  · rw [get_increment_other r now u v hvu]

theorem can_send_media_false (r : Redis) (now : Nat) (u : String)
    (h : 12 ≤ get_user_message_count r now u) : can_send_media r now u = false := by
  unfold can_send_media
  simp only [decide_eq_false_iff_not, Nat.not_lt]
  exact h

theorem can_send_media_true (r : Redis) (now : Nat) (u : String)
    (h : get_user_message_count r now u < 12) : can_send_media r now u = true := by
  unfold can_send_media
  exact decide_eq_true h

/-- With a valid extension and the stored count at the ceiling, the quota
guard refuses before any platform call. -/
theorem send_document_refuse (env : SendEnv) (r : Redis) (now : Nat) (u p c : String)
    (hp : endsWithPdf p = true) (hq : 12 ≤ get_user_message_count r now u) :
    send_document env r now u p c =
      .ok { result := (false, limitMsg), redis := r, actions := [] } := by
  unfold send_document
  simp [hp, can_send_media_false r now u hq]

/-- With an invalid extension, the raise before the `try` block propagates. -/
theorem send_document_invalid (env : SendEnv) (r : Redis) (now : Nat) (u p c : String)
    (hp : endsWithPdf p = false) :
    send_document env r now u p c = .error "Invalid file type" := by
  unfold send_document
  simp [hp]

/-- With a valid extension, every failure inside the `try` block is caught:
the call returns a `(bool, detail)` pair. -/
theorem send_document_total (env : SendEnv) (r : Redis) (now : Nat) (u p c : String)
    (hp : endsWithPdf p = true) :
    ∃ o, send_document env r now u p c = .ok o := by
  unfold send_document
  split
  · next hcon => exact absurd hp hcon
  · repeat' split
    all_goals exact ⟨_, rfl⟩

/-- An oversized file is refused inside the `try` block, before any upload. -/
theorem send_document_size_refuse (env : SendEnv) (r : Redis) (now : Nat) (u p c : String)
    (hp : endsWithPdf p = true) (hq : get_user_message_count r now u < 12)
    (hex : env.fileExists = true) (hsz : env.fileSize > 100 * 1024 * 1024) :
    send_document env r now u p c =
      .ok { result := (false, "File size exceeds WhatsApp" ++ apo ++ "s 100MB limit"),
            redis := r, actions := [] } := by
  unfold send_document
  simp [hp, can_send_media_true r now u hq, hex, hsz]

/-- The all-good path: upload succeeds, the reference send succeeds, the
counter is incremented. -/
theorem send_document_success (env : SendEnv) (r : Redis) (now : Nat) (u p c : String)
    (hp : endsWithPdf p = true) (hq : get_user_message_count r now u < 12)
    (hex : env.fileExists = true) (hsz : ¬ env.fileSize > 100 * 1024 * 1024)
    (hup : env.uploadStatus = 200) (hid : mediaIdFalsy env.uploadMediaId = false)
    (hsend : env.sendStatus = 200) :
    send_document env r now u p c =
      .ok { result := (true, "Success"),
            redis := increment_user_message_count r now u,
            actions := [.uploadMedia, .sendDoc u] } := by
  unfold send_document
  simp [hp, can_send_media_true r now u hq, hex, hsz, hup, hid, hsend]

/-- Case analysis of every `.ok` outcome of `send_document`. -/
theorem send_document_ok_spec (env : SendEnv) (r : Redis) (now : Nat) (u p c : String)
    (o : SendOutcome) (h : send_document env r now u p c = .ok o) :
    (o.result.1 = true →
      o.redis = increment_user_message_count r now u ∧ o.result.2 = "Success" ∧
        o.actions = [.uploadMedia, .sendDoc u] ∧ env.sendStatus = 200) ∧
    (o.result.1 = false → o.redis = r) ∧
    (Act.sendDoc u ∈ o.actions → env.sendStatus = 200 → o.result.1 = true) ∧
    ((env.uploadStatus ≠ 200 ∨ mediaIdFalsy env.uploadMediaId = true) → o.result.1 = false) ∧
    (o.actions.countP isSendDocAct ≤ 1) := by
  unfold send_document at h
  split_ifs at h
  all_goals
    first
    | exact Except.noConfusion h
    | (injection h with h2; subst h2; simp_all [isSendDocAct])

/-! ## Lemmas about the webhook handlers -/

theorem str_data_not_empty (s : String) (h : s ≠ "") : s.data.isEmpty = false := by
  cases s with
  | mk d =>
    cases d with
    | nil => exact absurd rfl h
    | cons c cs => rfl

theorem is_processed_live (r : Redis) (now t : Nat) (id : String)
    (hp : r.processed id = some t) (hlt : now < t) :
    is_processed_message r now id = true := by
  unfold is_processed_message
  rw [hp]
  simp [hlt]

/-- A redelivered event with a live processed record is answered 200 before
any external call or Redis write. -/
theorem webhook_dedup (env : ChapterEnv) (now : Nat) (r : Redis)
    (mid sndr mtype : String) (tf : PyVal) (t : Nat)
    (hmid : mid ≠ "") (hp : r.processed mid = some t) (hlt : now < t) :
    webhook env now r (mkWebhookBody mid sndr mtype tf) = (200, r, []) := by
  unfold webhook webhookCore mkWebhookBody
  simp [pyGet, pySubStr, pyIndex0, pyTruthy, lookupD, pyStrOf,
        str_data_not_empty mid hmid, is_processed_live r now t mid hp hlt]

theorem webhook_no_entry (env : ChapterEnv) (now : Nat) (r : Redis)
    (es : List (String × PyVal)) (h : lookupD es "entry" = none) :
    webhook env now r (.pyDict es) = (200, r, []) := by
  unfold webhook webhookCore
  simp [pyGet, h, pyTruthy]

theorem webhook_empty_entry (env : ChapterEnv) (now : Nat) (r : Redis)
    (es : List (String × PyVal)) (h : lookupD es "entry" = some (.pyList [])) :
    webhook env now r (.pyDict es) = (200, r, []) := by
  unfold webhook webhookCore
  simp [pyGet, h, pyTruthy]

theorem webhook_no_changes (env : ChapterEnv) (now : Nat) (r : Redis)
    (es es2 : List (String × PyVal)) (rest : List PyVal)
    (h : lookupD es "entry" = some (.pyList (.pyDict es2 :: rest)))
    (h2 : lookupD es2 "changes" = none) :
    webhook env now r (.pyDict es) = (200, r, []) := by
  unfold webhook webhookCore
  simp [pyGet, pySubStr, pyIndex0, h, h2, pyTruthy]

theorem webhook_empty_changes (env : ChapterEnv) (now : Nat) (r : Redis)
    (es es2 : List (String × PyVal)) (rest : List PyVal)
    (h : lookupD es "entry" = some (.pyList (.pyDict es2 :: rest)))
    (h2 : lookupD es2 "changes" = some (.pyList [])) :
    webhook env now r (.pyDict es) = (200, r, []) := by
  unfold webhook webhookCore
  simp [pyGet, pySubStr, pyIndex0, h, h2, pyTruthy]

theorem webhook_no_value (env : ChapterEnv) (now : Nat) (r : Redis)
    (es es2 es3 : List (String × PyVal)) (rest rest2 : List PyVal)
    (h : lookupD es "entry" = some (.pyList (.pyDict es2 :: rest)))
    (h2 : lookupD es2 "changes" = some (.pyList (.pyDict es3 :: rest2)))
    (h3 : lookupD es3 "value" = none) :
    webhook env now r (.pyDict es) = (200, r, []) := by
  unfold webhook webhookCore
  simp [pyGet, pySubStr, pyIndex0, h, h2, h3, pyTruthy, lookupD]

theorem webhook_no_messages (env : ChapterEnv) (now : Nat) (r : Redis)
    (es es2 es3 es4 : List (String × PyVal)) (rest rest2 : List PyVal)
    (h : lookupD es "entry" = some (.pyList (.pyDict es2 :: rest)))
    (h2 : lookupD es2 "changes" = some (.pyList (.pyDict es3 :: rest2)))
    (h3 : lookupD es3 "value" = some (.pyDict es4))
    (h4 : lookupD es4 "messages" = none) :
    webhook env now r (.pyDict es) = (200, r, []) := by
  unfold webhook webhookCore
  simp [pyGet, pySubStr, pyIndex0, h, h2, h3, h4, pyTruthy]

theorem webhook_empty_messages (env : ChapterEnv) (now : Nat) (r : Redis)
    (es es2 es3 es4 : List (String × PyVal)) (rest rest2 : List PyVal)
    (h : lookupD es "entry" = some (.pyList (.pyDict es2 :: rest)))
    (h2 : lookupD es2 "changes" = some (.pyList (.pyDict es3 :: rest2)))
    (h3 : lookupD es3 "value" = some (.pyDict es4))
    (h4 : lookupD es4 "messages" = some (.pyList [])) :
    webhook env now r (.pyDict es) = (200, r, []) := by
  unfold webhook webhookCore
  simp [pyGet, pySubStr, pyIndex0, h, h2, h3, h4, pyTruthy]

theorem webhookCore_status (env : ChapterEnv) (now : Nat) (r : Redis) (data : PyVal)
    (res : Nat × Redis × List Act) (h : webhookCore env now r data = .ok res) :
    res.1 = 200 := by
  unfold webhookCore at h
  repeat' split at h
  all_goals
    first
    | exact Except.noConfusion h
    | (injection h with h2; subst h2; rfl)

theorem webhook_500 (env : ChapterEnv) (now : Nat) (r : Redis) (data : PyVal)
    (h : (webhook env now r data).1 = 500) : webhook env now r data = (500, r, []) := by
  unfold webhook at h ⊢
  cases hc : webhookCore env now r data with
  | ok res =>
    rw [hc] at h
    simp only [] at h
    have h2 := webhookCore_status env now r data res hc
    rw [h2] at h
    exact absurd h (by decide)
  | error e => rfl

theorem main_webhook_ok_status (env : PageEnv) (data : PyVal) :
    (main_webhook env data).1 = "OK" := by
  unfold main_webhook
  split <;> rfl

theorem main_webhook_no_entry (env : PageEnv) (es : List (String × PyVal))
    (h : lookupD es "entry" = none) :
    main_webhook env (.pyDict es) = ("OK", [], []) := by
  unfold main_webhook mainWebhookBody
  simp [pySubStr, h]

theorem countP_sendDoc_map_fetch (l : List String) :
    ((l.map Act.fetchImage).countP isSendDocAct) = 0 := by
  induction l with
  | nil => rfl
  | cons a t ih => simp_all [isSendDocAct, List.countP_cons]

theorem countP_sendDoc_comp_fetch (l : List String) :
    (l.countP (isSendDocAct ∘ Act.fetchImage)) = 0 := by
  induction l with
  | nil => rfl
  | cons a t ih => simp_all [isSendDocAct, List.countP_cons, Function.comp]

theorem downloadImages_eq_filterMap (env : ChapterEnv) (srcs : List String) :
    downloadImages env srcs = srcs.filterMap (fun s =>
      if (env.imageDownload s).1 = 200 then some (env.imageDownload s).2 else none) := by
  induction srcs with
  | nil => rfl
  | cons a t ih =>
    simp only [downloadImages, List.filterMap_cons]
    split <;> simp_all

theorem process_empty_listing (env : ChapterEnv) (now : Nat) (r : Redis)
    (u t n : String) (sender : PyVal)
    (hq : can_send_media r now (pyStrOf sender) = true)
    (hp : parseChapter (.pyStr u) = .ok (u, t, n))
    (hempty : env.listingImages = []) :
    process_manga_chapter env now r (.pyStr u) sender =
      (r, [.sendTextMsg (pyStrOf sender) ("Starting to process " ++ t ++ " Chapter " ++ n),
           .fetchPage u,
           .sendTextMsg (pyStrOf sender) noImagesMsg]) := by
  unfold process_manga_chapter
  simp [hq, hp, hempty]

theorem process_at_most_one_doc (env : ChapterEnv) (now : Nat) (r : Redis)
    (url sender : PyVal) :
    ((process_manga_chapter env now r url sender).2.countP isSendDocAct) ≤ 1 := by
  unfold process_manga_chapter
  cases hq : can_send_media r now (pyStrOf sender)
  · simp [hq, isSendDocAct]
  cases hp : parseChapter url with
  | error e => simp [hq, hp, isSendDocAct]
  | ok tup =>
    obtain ⟨u, t, n⟩ := tup
    by_cases hl : env.listingImages.isEmpty
    · simp [hq, hp, hl, isSendDocAct]
    · cases hsd : send_document
          { env.sendEnv with fileExists := !(downloadImages env env.listingImages).isEmpty }
          r now (pyStrOf sender) ("temp_manga/" ++ t ++ "_Chapter_" ++ n ++ ".pdf")
          (t ++ " - Chapter " ++ n) with
      | error e =>
        simp [hq, hp, hl, hsd, isSendDocAct, countP_sendDoc_map_fetch,
          countP_sendDoc_comp_fetch, List.countP_append]
      | ok o =>
        have hb := (send_document_ok_spec _ _ _ _ _ _ _ hsd).2.2.2.2
        by_cases hres : o.result.1 = true <;>
          simp [hq, hp, hl, hsd, hres, isSendDocAct, countP_sendDoc_map_fetch,
            countP_sendDoc_comp_fetch, List.countP_append, List.countP_cons] <;> omega

/-! ## Claim C1 -/

/-- Claim C1: a media send is refused once the stored count reaches the
ceiling of 12: with a .pdf path and a count of at least 12, send_document
returns the refusal with Redis untouched and no platform call; no
send_document outcome ever lowers any user count within the window; and from
a fresh window exactly 12 sends succeed before the first refusal. -/
theorem claim_C1_quota_ceiling :
    (∀ (env : SendEnv) (r : Redis) (now : Nat) (u p c : String),
      endsWithPdf p = true → 12 ≤ get_user_message_count r now u →
        send_document env r now u p c =
          .ok { result := (false, limitMsg), redis := r, actions := [] }) ∧
    (∀ (env : SendEnv) (r : Redis) (now : Nat) (u p c : String) (o : SendOutcome),
      send_document env r now u p c = .ok o →
        ∀ v, get_user_message_count r now v ≤ get_user_message_count o.redis now v) ∧
    ((runSends goodEnv 0 "15551234567" "t.pdf" 13 freshRedis).1 =
      List.replicate 12 (true, "Success") ++ [(false, limitMsg)]) := by
  refine ⟨?_, ?_, ?_⟩
  · exact fun env r now u p c hp hq => send_document_refuse env r now u p c hp hq
  · intro env r now u p c o h v
    have hspec := send_document_ok_spec env r now u p c o h
    cases hres : o.result.1 with
    | true =>
      rw [(hspec.1 hres).1]
      exact get_increment_le r now u v
    | false => rw [hspec.2.1 hres]
  · decide

/-- Witness for C1 at concrete inputs: a user stored at 12 is refused with
no state change, and a successful send does not lower the count. -/
theorem claim_C1_quota_ceiling_witness :
    (send_document goodEnv r12 0 "u12" "a.pdf" "" =
      .ok { result := (false, limitMsg), redis := r12, actions := [] }) ∧
    (get_user_message_count freshRedis 0 "u12" ≤
      get_user_message_count (increment_user_message_count freshRedis 0 "u12") 0 "u12") :=
  ⟨claim_C1_quota_ceiling.1 goodEnv r12 0 "u12" "a.pdf" "" (by decide) (by decide),
   claim_C1_quota_ceiling.2.1 goodEnv freshRedis 0 "u12" "a.pdf" ""
     { result := (true, "Success"), redis := increment_user_message_count freshRedis 0 "u12",
       actions := [.uploadMedia, .sendDoc "u12"] } rfl "u12"⟩

/-! ## Claim C3 -/

/-- Claim C3: the quota guard runs before the upload phase (an exhausted
user is refused with zero platform actions); a failed upload phase (bad
status or missing media handle) aborts with the counter unchanged; and the
counter is incremented exactly when the phase-2 reference send succeeds. -/
theorem claim_C3_two_phase_quota :
    (∀ (env : SendEnv) (r : Redis) (now : Nat) (u p c : String),
      endsWithPdf p = true → 12 ≤ get_user_message_count r now u →
        send_document env r now u p c =
          .ok { result := (false, limitMsg), redis := r, actions := [] }) ∧
    (∀ (env : SendEnv) (r : Redis) (now : Nat) (u p c : String) (o : SendOutcome),
      (env.uploadStatus ≠ 200 ∨ mediaIdFalsy env.uploadMediaId = true) →
      send_document env r now u p c = .ok o →
        o.result.1 = false ∧ o.redis = r) ∧
    (∀ (env : SendEnv) (r : Redis) (now : Nat) (u p c : String) (o : SendOutcome),
      send_document env r now u p c = .ok o →
        (get_user_message_count o.redis now u = get_user_message_count r now u + 1 ↔
          (Act.sendDoc u ∈ o.actions ∧ env.sendStatus = 200))) := by
  refine ⟨?_, ?_, ?_⟩
  · exact fun env r now u p c hp hq => send_document_refuse env r now u p c hp hq
  · intro env r now u p c o hbad h
    have hspec := send_document_ok_spec env r now u p c o h
    have hf := hspec.2.2.2.1 hbad
    exact ⟨hf, hspec.2.1 hf⟩
  · intro env r now u p c o h
    have hspec := send_document_ok_spec env r now u p c o h
    constructor
    · intro hinc
      cases hres : o.result.1 with
      | true =>
        obtain ⟨hredis, hsucc, hacts, hstat⟩ := hspec.1 hres
        refine ⟨?_, hstat⟩
        rw [hacts]
        simp
      | false =>
        rw [hspec.2.1 hres] at hinc
        omega
    · rintro ⟨hmem, hstat⟩
      have hres := hspec.2.2.1 hmem hstat
      rw [(hspec.1 hres).1]
      exact get_increment_self r now u

/-- Witness for C3 at concrete inputs: refusal at the ceiling with no
actions; a 500 upload aborts with Redis unchanged; and a successful
reference send increments by exactly one. -/
theorem claim_C3_two_phase_quota_witness :
    (send_document goodEnv r12 0 "u12" "c.pdf" "" =
      .ok { result := (false, limitMsg), redis := r12, actions := [] }) ∧
    ({ result := (false, "Failed to upload document: hx"), redis := freshRedis,
       actions := [Act.uploadMedia] : SendOutcome }.result.1 = false ∧
     { result := (false, "Failed to upload document: hx"), redis := freshRedis,
       actions := [Act.uploadMedia] : SendOutcome }.redis = freshRedis) ∧
    (get_user_message_count
        ({ result := (true, "Success"),
           redis := increment_user_message_count freshRedis 0 "u7",
           actions := [Act.uploadMedia, Act.sendDoc "u7"] : SendOutcome }).redis 0 "u7" =
      get_user_message_count freshRedis 0 "u7" + 1) := by
  refine ⟨claim_C3_two_phase_quota.1 goodEnv r12 0 "u12" "c.pdf" "" (by decide) (by decide),
    claim_C3_two_phase_quota.2.1
      { goodEnv with uploadStatus := 500, uploadText := "hx" }
      freshRedis 0 "u7" "c.pdf" ""
      { result := (false, "Failed to upload document: hx"), redis := freshRedis,
        actions := [Act.uploadMedia] } (Or.inl (by decide)) rfl,
    ?_⟩
  exact (claim_C3_two_phase_quota.2.2 goodEnv freshRedis 0 "u7" "c.pdf" ""
    { result := (true, "Success"), redis := increment_user_message_count freshRedis 0 "u7",
      actions := [Act.uploadMedia, Act.sendDoc "u7"] } rfl).2 ⟨by decide, rfl⟩

/-! ## Claim C4 -/

/-- Counterexample to C4 as stated: the second increment (at instant 1000)
moves the expiry to 1000 + 86400, while an expiry set only on the first
increment of the window (at instant 0) would still read 0 + 86400. -/
theorem claim_C4_counterexample :
    (increment_user_message_count freshRedis 0 "u4").quotaExpiry "u4" = some 86400 ∧
    (increment_user_message_count
        (increment_user_message_count freshRedis 0 "u4") 1000 "u4").quotaExpiry "u4" =
      some 87400 := by
  exact ⟨rfl, rfl⟩

/-- Claim C4 amended: `increment_user_message_count` sets the 24-hour expiry
on every increment, not only the first of a window: each send moves the
expiry to 24 hours after that send, so the window slides with the most
recent send instead of staying fixed at the first. -/
theorem claim_C4_expiry_every_increment (r : Redis) (now : Nat) (u : String) :
    (increment_user_message_count r now u).quotaExpiry u = some (now + 24 * 60 * 60) ∧
    (increment_user_message_count r now u).quota u =
      some (get_user_message_count r now u + 1) := by
  unfold increment_user_message_count upd get_user_message_count
  constructor <;> simp

/-! ## Claim C2 -/

/-- Claim C2: an event id with a live processed record is never reprocessed:
marking at instant T keeps the record live before T + 3600, and a webhook
delivery whose message carries such an id is answered 200 with Redis
untouched and no fetch, dispatch or quota action. -/
theorem claim_C2_idempotency :
    (∀ (r : Redis) (now now2 : Nat) (id : String),
      now2 < now + 3600 →
        is_processed_message (mark_message_processed r now id) now2 id = true) ∧
    (∀ (env : ChapterEnv) (now : Nat) (r : Redis) (mid sndr mtype : String)
        (tf : PyVal) (t : Nat),
      mid ≠ "" → r.processed mid = some t → now < t →
        webhook env now r (mkWebhookBody mid sndr mtype tf) = (200, r, [])) := by
  constructor
  · intro r now now2 id h
    unfold is_processed_message mark_message_processed upd
    simp [h]
  · exact fun env now r mid sndr mtype tf t h1 h2 h3 =>
      webhook_dedup env now r mid sndr mtype tf t h1 h2 h3

/-- Witness for C2 at concrete inputs: a record marked at 0 is live at 10,
and the redelivery of event id m1 is answered 200 with no side effect. -/
theorem claim_C2_idempotency_witness :
    (is_processed_message (mark_message_processed freshRedis 0 "m1") 10 "m1" = true) ∧
    (webhook cenv0 0 rProcessed
        (mkWebhookBody "m1" "777" "text" (.pyDict [("body", .pyStr "hi")])) =
      (200, rProcessed, [])) :=
  ⟨claim_C2_idempotency.1 freshRedis 0 10 "m1" (by decide),
   claim_C2_idempotency.2 cenv0 0 rProcessed "m1" "777" "text"
     (.pyDict [("body", .pyStr "hi")]) 100 (by decide) rfl (by decide)⟩

/-! ## Claim C9 -/

/-- Counterexample to C9 as stated: with a path that is not .pdf, the raise
on src/app.py line 77 happens before the try block, so send_document
propagates the exception to its caller instead of returning (False, detail). -/
theorem claim_C9_counterexample :
    send_document goodEnv freshRedis 0 "u1" "a.txt" "" = .error "Invalid file type" := rfl

/-- Claim C9 amended: with a .pdf path every failure inside send_document is
caught and returned as a (bool, detail) pair; with any other path the
extension check raises "Invalid file type" to the caller, since it precedes
the try block. -/
theorem claim_C9_no_propagation :
    (∀ (env : SendEnv) (r : Redis) (now : Nat) (u p c : String),
      endsWithPdf p = false →
        send_document env r now u p c = .error "Invalid file type") ∧
    (∀ (env : SendEnv) (r : Redis) (now : Nat) (u p c : String),
      endsWithPdf p = true → ∃ o, send_document env r now u p c = .ok o) :=
  ⟨fun env r now u p c hp => send_document_invalid env r now u p c hp,
   fun env r now u p c hp => send_document_total env r now u p c hp⟩

/-- Witness for C9 amended at concrete inputs. -/
theorem claim_C9_no_propagation_witness :
    (send_document goodEnv freshRedis 0 "u1" "b.txt" "" = .error "Invalid file type") ∧
    (∃ o, send_document goodEnv freshRedis 0 "u1" "b.pdf" "" = .ok o) :=
  ⟨claim_C9_no_propagation.1 goodEnv freshRedis 0 "u1" "b.txt" "" (by decide),
   claim_C9_no_propagation.2 goodEnv freshRedis 0 "u1" "b.pdf" "" (by decide)⟩

/-! ## Claim C5 -/

/-- Counterexample to C5 as stated: a run whose assembled document is over
the 100 MiB ceiling is not split into multiple documents: no upload and no
document send occur at all; the user receives a single size-limit failure
text and the quota is untouched. -/
theorem claim_C5_counterexample :
    (process_manga_chapter cenvBig 0 freshRedis
        (.pyStr "https://lekmanga.net/manga/ee-ff/2") (.pyStr "444")).2 =
      [.sendTextMsg "444" "Starting to process Ee Ff Chapter 2",
       .fetchPage "https://lekmanga.net/manga/ee-ff/2",
       .fetchImage "a", .fetchImage "b",
       .sendTextMsg "444"
         ("Failed to send PDF file: File size exceeds WhatsApp" ++ apo ++ "s 100MB limit")] ∧
    get_user_message_count
      (process_manga_chapter cenvBig 0 freshRedis
        (.pyStr "https://lekmanga.net/manga/ee-ff/2") (.pyStr "444")).1 0 "444" = 0 := by
  exact ⟨by decide, rfl⟩

/-- Claim C5 amended: the assembler never splits: every pipeline run
dispatches at most one document; a document over the 100 MiB ceiling is
refused inside send_document before any upload, with the quota untouched;
and a document at or under the ceiling is sendable in one piece. -/
theorem claim_C5_no_split :
    (∀ (env : ChapterEnv) (now : Nat) (r : Redis) (url sender : PyVal),
      ((process_manga_chapter env now r url sender).2.countP isSendDocAct) ≤ 1) ∧
    (∀ (env : SendEnv) (r : Redis) (now : Nat) (u p c : String),
      endsWithPdf p = true → get_user_message_count r now u < 12 →
      env.fileExists = true → env.fileSize > 100 * 1024 * 1024 →
        send_document env r now u p c =
          .ok { result := (false, "File size exceeds WhatsApp" ++ apo ++ "s 100MB limit"),
                redis := r, actions := [] }) ∧
    (∀ (env : SendEnv) (r : Redis) (now : Nat) (u p c : String),
      endsWithPdf p = true → get_user_message_count r now u < 12 →
      env.fileExists = true → ¬ env.fileSize > 100 * 1024 * 1024 →
      env.uploadStatus = 200 → mediaIdFalsy env.uploadMediaId = false →
      env.sendStatus = 200 →
        send_document env r now u p c =
          .ok { result := (true, "Success"),
                redis := increment_user_message_count r now u,
                actions := [.uploadMedia, .sendDoc u] }) :=
  ⟨fun env now r url sender => process_at_most_one_doc env now r url sender,
   fun env r now u p c hp hq hex hsz =>
     send_document_size_refuse env r now u p c hp hq hex hsz,
   fun env r now u p c hp hq hex hsz hup hid hsend =>
     send_document_success env r now u p c hp hq hex hsz hup hid hsend⟩

/-- Witness for C5 amended at concrete file sizes just over and exactly at
the ceiling. -/
theorem claim_C5_no_split_witness :
    (send_document bigEnv freshRedis 0 "u5" "d.pdf" "" =
      .ok { result := (false, "File size exceeds WhatsApp" ++ apo ++ "s 100MB limit"),
            redis := freshRedis, actions := [] }) ∧
    (send_document atLimitEnv freshRedis 0 "u5" "d.pdf" "" =
      .ok { result := (true, "Success"),
            redis := increment_user_message_count freshRedis 0 "u5",
            actions := [.uploadMedia, .sendDoc "u5"] }) :=
  ⟨claim_C5_no_split.2.1 bigEnv freshRedis 0 "u5" "d.pdf" ""
     (by decide) (by decide) (by decide) (by decide),
   claim_C5_no_split.2.2 atLimitEnv freshRedis 0 "u5" "d.pdf" ""
     (by decide) (by decide) (by decide) (by decide) (by decide) (by decide) (by decide)⟩

/-! ## Claim C8 -/

/-- Counterexample to C8 as stated: a run with one locator whose download
fails yields an empty fetched sequence, yet the run does not stop with an
empty-result report: no PDF is created and the run still dispatches, so the
user is told the send failed with File not found, and the no-images report
is never sent. -/
theorem claim_C8_counterexample :
    process_manga_chapter cenvAllFail 0 freshRedis
        (.pyStr "https://lekmanga.net/manga/solo-leveling/1") (.pyStr "111") =
      (freshRedis,
        [.sendTextMsg "111" "Starting to process Solo Leveling Chapter 1",
         .fetchPage "https://lekmanga.net/manga/solo-leveling/1",
         .fetchImage "img1",
         .sendTextMsg "111"
           "Failed to send PDF file: File not found: temp_manga/Solo Leveling_Chapter_1.pdf"]) ∧
    Act.sendTextMsg "111" noImagesMsg ∉
      (process_manga_chapter cenvAllFail 0 freshRedis
        (.pyStr "https://lekmanga.net/manga/solo-leveling/1") (.pyStr "111")).2 := by
  exact ⟨rfl, by decide⟩

/-- Claim C8 amended: a download answered with a non-success status is
skipped while the loop keeps the remaining locators in order (the fetched
sequence is the in-order filter of successful downloads); a run whose
locator list is empty stops with the no-images report before any download;
but an empty fetched sequence from a non-empty locator list is not
detected: the run proceeds to dispatch, which fails with File not found. -/
theorem claim_C8_fetch_failures :
    (∀ (env : ChapterEnv) (srcs : List String),
      downloadImages env srcs = srcs.filterMap (fun s =>
        if (env.imageDownload s).1 = 200 then some (env.imageDownload s).2 else none)) ∧
    (∀ (env : ChapterEnv) (now : Nat) (r : Redis) (u t n : String) (sender : PyVal),
      can_send_media r now (pyStrOf sender) = true →
      parseChapter (.pyStr u) = .ok (u, t, n) →
      env.listingImages = [] →
        process_manga_chapter env now r (.pyStr u) sender =
          (r, [.sendTextMsg (pyStrOf sender) ("Starting to process " ++ t ++ " Chapter " ++ n),
               .fetchPage u,
               .sendTextMsg (pyStrOf sender) noImagesMsg])) ∧
    ((process_manga_chapter { cenvAllFail with listingImages := ["x1", "x2"] } 0 freshRedis
        (.pyStr "https://lekmanga.net/manga/aa-bb/7") (.pyStr "222")).2 =
      [.sendTextMsg "222" "Starting to process Aa Bb Chapter 7",
       .fetchPage "https://lekmanga.net/manga/aa-bb/7",
       .fetchImage "x1", .fetchImage "x2",
       .sendTextMsg "222"
         "Failed to send PDF file: File not found: temp_manga/Aa Bb_Chapter_7.pdf"]) := by
  refine ⟨fun env srcs => downloadImages_eq_filterMap env srcs,
    fun env now r u t n sender hq hp he => process_empty_listing env now r u t n sender hq hp he,
    by decide⟩

/-- Witness for C8 amended at concrete inputs: the failed download is
dropped from the fetched sequence, and an empty listing stops the run with
the no-images report. -/
theorem claim_C8_fetch_failures_witness :
    (downloadImages cenvAllFail ["img1"] = ["img1"].filterMap (fun s =>
      if (cenvAllFail.imageDownload s).1 = 200 then some (cenvAllFail.imageDownload s).2
      else none)) ∧
    (process_manga_chapter cenv0 0 freshRedis
        (.pyStr "https://lekmanga.net/manga/cc-dd/3") (.pyStr "333") =
      (freshRedis,
        [.sendTextMsg "333" "Starting to process Cc Dd Chapter 3",
         .fetchPage "https://lekmanga.net/manga/cc-dd/3",
         .sendTextMsg "333" noImagesMsg])) :=
  ⟨claim_C8_fetch_failures.1 cenvAllFail ["img1"],
   claim_C8_fetch_failures.2.1 cenv0 0 freshRedis "https://lekmanga.net/manga/cc-dd/3"
     "Cc Dd" "3" (.pyStr "333") (by decide) rfl rfl⟩

/-! ## Claim C7 -/

/-- Counterexample to C7 as stated: the body with entry bound to the int 5
(a wrongly-shaped level) raises at the subscript `data['entry'][0]` and
src/app.py answers 500, not a success status. -/
theorem claim_C7_counterexample :
    webhook cenv0 0 freshRedis (.pyDict [("entry", .pyInt 5)]) = (500, freshRedis, []) := rfl

/-- Claim C7 amended: a webhook body whose nesting is absent or empty at any
level (entry, changes, value, messages) is answered 200 with Redis untouched
and no external action; a wrongly-shaped level instead raises, after which
src/app.py answers 500 (still with no side effect), while src/main.py
answers success for every body and performs nothing when extraction fails. -/
theorem claim_C7_malformed_webhook :
    (∀ (env : ChapterEnv) (now : Nat) (r : Redis) (es : List (String × PyVal)),
      lookupD es "entry" = none → webhook env now r (.pyDict es) = (200, r, [])) ∧
    (∀ (env : ChapterEnv) (now : Nat) (r : Redis) (es : List (String × PyVal)),
      lookupD es "entry" = some (.pyList []) →
        webhook env now r (.pyDict es) = (200, r, [])) ∧
    (∀ (env : ChapterEnv) (now : Nat) (r : Redis) (es es2 : List (String × PyVal))
        (rest : List PyVal),
      lookupD es "entry" = some (.pyList (.pyDict es2 :: rest)) →
      lookupD es2 "changes" = none → webhook env now r (.pyDict es) = (200, r, [])) ∧
    (∀ (env : ChapterEnv) (now : Nat) (r : Redis) (es es2 : List (String × PyVal))
        (rest : List PyVal),
      lookupD es "entry" = some (.pyList (.pyDict es2 :: rest)) →
      lookupD es2 "changes" = some (.pyList []) →
        webhook env now r (.pyDict es) = (200, r, [])) ∧
    (∀ (env : ChapterEnv) (now : Nat) (r : Redis) (es es2 es3 : List (String × PyVal))
        (rest rest2 : List PyVal),
      lookupD es "entry" = some (.pyList (.pyDict es2 :: rest)) →
      lookupD es2 "changes" = some (.pyList (.pyDict es3 :: rest2)) →
      lookupD es3 "value" = none → webhook env now r (.pyDict es) = (200, r, [])) ∧
    (∀ (env : ChapterEnv) (now : Nat) (r : Redis)
        (es es2 es3 es4 : List (String × PyVal)) (rest rest2 : List PyVal),
      lookupD es "entry" = some (.pyList (.pyDict es2 :: rest)) →
      lookupD es2 "changes" = some (.pyList (.pyDict es3 :: rest2)) →
      lookupD es3 "value" = some (.pyDict es4) → lookupD es4 "messages" = none →
        webhook env now r (.pyDict es) = (200, r, [])) ∧
    (∀ (env : ChapterEnv) (now : Nat) (r : Redis)
        (es es2 es3 es4 : List (String × PyVal)) (rest rest2 : List PyVal),
      lookupD es "entry" = some (.pyList (.pyDict es2 :: rest)) →
      lookupD es2 "changes" = some (.pyList (.pyDict es3 :: rest2)) →
      lookupD es3 "value" = some (.pyDict es4) →
      lookupD es4 "messages" = some (.pyList []) →
        webhook env now r (.pyDict es) = (200, r, [])) ∧
    (∀ (env : ChapterEnv) (now : Nat) (r : Redis) (data : PyVal),
      (webhook env now r data).1 = 500 → webhook env now r data = (500, r, [])) ∧
    (∀ (env : PageEnv) (data : PyVal), (main_webhook env data).1 = "OK") ∧
    (∀ (env : PageEnv) (es : List (String × PyVal)),
      lookupD es "entry" = none → main_webhook env (.pyDict es) = ("OK", [], [])) := by
  refine ⟨?_, ?_, ?_, ?_, ?_, ?_, ?_, ?_, ?_, ?_⟩
  · exact fun env now r es h => webhook_no_entry env now r es h
  · exact fun env now r es h => webhook_empty_entry env now r es h
  · exact fun env now r es es2 rest h h2 => webhook_no_changes env now r es es2 rest h h2
  · exact fun env now r es es2 rest h h2 => webhook_empty_changes env now r es es2 rest h h2
  · exact fun env now r es es2 es3 rest rest2 h h2 h3 =>
      webhook_no_value env now r es es2 es3 rest rest2 h h2 h3
  · exact fun env now r es es2 es3 es4 rest rest2 h h2 h3 h4 =>
      webhook_no_messages env now r es es2 es3 es4 rest rest2 h h2 h3 h4
  · exact fun env now r es es2 es3 es4 rest rest2 h h2 h3 h4 =>
      webhook_empty_messages env now r es es2 es3 es4 rest rest2 h h2 h3 h4
  · exact fun env now r data h => webhook_500 env now r data h
  · exact fun env data => main_webhook_ok_status env data
  · exact fun env es h => main_webhook_no_entry env es h

/-- Witness for C7 amended: each absent-or-empty shape at a concrete body,
the 500 answer of a concrete wrongly-shaped body, and the main.py handler on
a concrete malformed body. -/
theorem claim_C7_malformed_webhook_witness :
    (webhook cenv0 0 freshRedis (.pyDict []) = (200, freshRedis, [])) ∧
    (webhook cenv0 0 freshRedis (.pyDict [("entry", .pyList [])]) = (200, freshRedis, [])) ∧
    (webhook cenv0 0 freshRedis (.pyDict [("entry", .pyList [.pyDict []])]) =
      (200, freshRedis, [])) ∧
    (webhook cenv0 0 freshRedis
        (.pyDict [("entry", .pyList [.pyDict [("changes", .pyList [])]])]) =
      (200, freshRedis, [])) ∧
    (webhook cenv0 0 freshRedis
        (.pyDict [("entry", .pyList [.pyDict [("changes", .pyList [.pyDict []])]])]) =
      (200, freshRedis, [])) ∧
    (webhook cenv0 0 freshRedis
        (.pyDict [("entry", .pyList [.pyDict [("changes",
          .pyList [.pyDict [("value", .pyDict [])]])]])]) =
      (200, freshRedis, [])) ∧
    (webhook cenv0 0 freshRedis
        (.pyDict [("entry", .pyList [.pyDict [("changes",
          .pyList [.pyDict [("value", .pyDict [("messages", .pyList [])])]])]])]) =
      (200, freshRedis, [])) ∧
    (webhook cenv0 0 freshRedis (.pyDict [("entry", .pyInt 7)]) = (500, freshRedis, [])) ∧
    ((main_webhook penv0 (.pyInt 3)).1 = "OK") ∧
    (main_webhook penv0 (.pyDict []) = ("OK", [], [])) :=
  ⟨claim_C7_malformed_webhook.1 cenv0 0 freshRedis [] rfl,
   claim_C7_malformed_webhook.2.1 cenv0 0 freshRedis [("entry", .pyList [])] rfl,
   claim_C7_malformed_webhook.2.2.1 cenv0 0 freshRedis [("entry", .pyList [.pyDict []])] [] [] rfl rfl,
   claim_C7_malformed_webhook.2.2.2.1 cenv0 0 freshRedis
     [("entry", .pyList [.pyDict [("changes", .pyList [])]])] [("changes", .pyList [])] [] rfl rfl,
   claim_C7_malformed_webhook.2.2.2.2.1 cenv0 0 freshRedis
     [("entry", .pyList [.pyDict [("changes", .pyList [.pyDict []])]])]
     [("changes", .pyList [.pyDict []])] [] [] [] rfl rfl rfl,
   claim_C7_malformed_webhook.2.2.2.2.2.1 cenv0 0 freshRedis
     [("entry", .pyList [.pyDict [("changes", .pyList [.pyDict [("value", .pyDict [])]])]])]
     [("changes", .pyList [.pyDict [("value", .pyDict [])]])]
     [("value", .pyDict [])] [] [] [] rfl rfl rfl rfl,
   claim_C7_malformed_webhook.2.2.2.2.2.2.1 cenv0 0 freshRedis
     [("entry", .pyList [.pyDict [("changes",
       .pyList [.pyDict [("value", .pyDict [("messages", .pyList [])])]])]])]
     [("changes", .pyList [.pyDict [("value", .pyDict [("messages", .pyList [])])]])]
     [("value", .pyDict [("messages", .pyList [])])]
     [("messages", .pyList [])] [] [] rfl rfl rfl rfl,
   claim_C7_malformed_webhook.2.2.2.2.2.2.2.1 cenv0 0 freshRedis
     (.pyDict [("entry", .pyInt 7)]) rfl,
   claim_C7_malformed_webhook.2.2.2.2.2.2.2.2.1 penv0 (.pyInt 3),
   claim_C7_malformed_webhook.2.2.2.2.2.2.2.2.2 penv0 [] rfl⟩

/-! ## Claim C6 -/

theorem buildChunkMsgsAux_length (url : String) (total : Nat) :
    ∀ (j : Nat) (cs : List String), (buildChunkMsgsAux url total j cs).length = cs.length
  | _, [] => rfl
  | j, c :: rest => by
    simp [buildChunkMsgsAux, buildChunkMsgsAux_length url total (j + 1) rest]

theorem buildChunkMsgsAux_map_data (url : String) (total : Nat) :
    ∀ (j : Nat) (cs : List String),
      (buildChunkMsgsAux url total j cs).map (fun m => m.data) = cs
  | _, [] => rfl
  | j, c :: rest => by
    simp [buildChunkMsgsAux, buildChunkMsgsAux_map_data url total (j + 1) rest]

theorem buildChunkMsgsAux_get (url : String) (total : Nat) :
    ∀ (j : Nat) (cs : List String) (i : Nat)
      (h : i < (buildChunkMsgsAux url total j cs).length),
      ((buildChunkMsgsAux url total j cs).get ⟨i, h⟩).chunk_index = j + i ∧
      ((buildChunkMsgsAux url total j cs).get ⟨i, h⟩).total_chunks = total
  | j, [], i, h => by simp [buildChunkMsgsAux] at h
  | j, c :: rest, 0, h => by simp [buildChunkMsgsAux]
  | j, c :: rest, i + 1, h => by
    have h2 : i < (buildChunkMsgsAux url total (j + 1) rest).length := by
      have h3 := h
      simp only [buildChunkMsgsAux, List.length_cons] at h3
      omega
    have hrec := buildChunkMsgsAux_get url total (j + 1) rest i h2
    have hcast : ((buildChunkMsgsAux url total j (c :: rest)).get ⟨i + 1, h⟩) =
        ((buildChunkMsgsAux url total (j + 1) rest).get ⟨i, h2⟩) := rfl
    rw [hcast, hrec.1, hrec.2]
    omega

/-- Claim C6: chunk assembly is a lossless round trip: the concatenation of
the byte-offset chunks in index order reproduces the payload for every
payload (so also for length 0 and for exact chunk-size multiples), and the
outbound message built for the i-th chunk carries chunk_index i, the total
chunk count, and the chunk itself. -/
theorem claim_C6_chunk_roundtrip :
    (∀ (k : Nat) (xs : List Char), 0 < k → (pyChunksList k xs).flatten = xs) ∧
    (∀ (url : String) (chunks : List String),
      (buildChunkMsgs url chunks).length = chunks.length ∧
      (buildChunkMsgs url chunks).map (fun m => m.data) = chunks) ∧
    (∀ (url : String) (chunks : List String) (i : Nat)
        (h : i < (buildChunkMsgs url chunks).length),
      ((buildChunkMsgs url chunks).get ⟨i, h⟩).chunk_index = i ∧
      ((buildChunkMsgs url chunks).get ⟨i, h⟩).total_chunks = chunks.length) := by
  refine ⟨fun k xs hk => pyChunksList_flatten k hk xs, ?_, ?_⟩
  · intro url chunks
    exact ⟨buildChunkMsgsAux_length url chunks.length 0 chunks,
           buildChunkMsgsAux_map_data url chunks.length 0 chunks⟩
  · intro url chunks i h
    have hrec := buildChunkMsgsAux_get url chunks.length 0 chunks i h
    refine ⟨?_, hrec.2⟩
    have h1 : ((buildChunkMsgs url chunks).get ⟨i, h⟩).chunk_index = 0 + i := hrec.1
    rw [h1]
    omega

/-- Witness for C6 at concrete inputs: an exact-multiple payload, the empty
payload, and the metadata of the second of two chunk messages. -/
theorem claim_C6_chunk_roundtrip_witness :
    ((pyChunksList 3 "abcdef".data).flatten = "abcdef".data) ∧
    ((pyChunksList 3 ([] : List Char)).flatten = []) ∧
    ((buildChunkMsgs "u" ["aa", "bb"]).map (fun m => m.data) = ["aa", "bb"]) ∧
    (((buildChunkMsgs "u" ["aa", "bb"]).get
        ⟨1, by decide⟩).chunk_index = 1 ∧
     ((buildChunkMsgs "u" ["aa", "bb"]).get
        ⟨1, by decide⟩).total_chunks = 2) :=
  ⟨claim_C6_chunk_roundtrip.1 3 "abcdef".data (by decide),
   claim_C6_chunk_roundtrip.1 3 [] (by decide),
   (claim_C6_chunk_roundtrip.2.1 "u" ["aa", "bb"]).2,
   claim_C6_chunk_roundtrip.2.2 "u" ["aa", "bb"] 1 (by decide)⟩

/-! ## Claim C10 -/

theorem process_webpage_fetch_err (env : PageEnv) (url e : String)
    (hf : env.fetchErr = some e) : process_webpage env url = [jsonErrObj e] := by
  unfold process_webpage processWebpageBody
  rw [hf]

theorem process_webpage_fetch_ok (env : PageEnv) (url : String)
    (hf : env.fetchErr = none) :
    process_webpage env url =
      [jsonErrObj ("name " ++ apo ++ "datetime" ++ apo ++ " is not defined")] := by
  unfold process_webpage processWebpageBody
  rw [hf]
  rfl

/-- Claim C10: process_webpage always returns a one-element list holding a
JSON error object: the success path is unreachable because building
page_data evaluates datetime.now() while main.py never binds datetime, so
even a URL whose fetch succeeds raises NameError, which the surrounding
handler catches; the function never raises and never returns an empty list. -/
theorem claim_C10_datetime_unreachable :
    (∀ (env : PageEnv) (url : String), ∃ e, process_webpage env url = [jsonErrObj e]) ∧
    (∀ (env : PageEnv) (url : String), env.fetchErr = none →
      process_webpage env url =
        [jsonErrObj ("name " ++ apo ++ "datetime" ++ apo ++ " is not defined")]) ∧
    (∀ (env : PageEnv) (url : String), (process_webpage env url).length = 1) := by
  have key : ∀ (env : PageEnv) (url : String), ∃ e, process_webpage env url = [jsonErrObj e] := by
    intro env url
    cases hf : env.fetchErr with
    | some e => exact ⟨e, process_webpage_fetch_err env url e hf⟩
    | none =>
      exact ⟨"name " ++ apo ++ "datetime" ++ apo ++ " is not defined",
        process_webpage_fetch_ok env url hf⟩
  refine ⟨key, fun env url hf => process_webpage_fetch_ok env url hf, ?_⟩
  intro env url
  obtain ⟨e, he⟩ := key env url
  rw [he]
  rfl

/-- Witness for C10 at a concrete environment whose fetch succeeds. -/
theorem claim_C10_datetime_unreachable_witness :
    process_webpage penv0 "https://example.com" =
      [jsonErrObj ("name " ++ apo ++ "datetime" ++ apo ++ " is not defined")] :=
  claim_C10_datetime_unreachable.2.1 penv0 "https://example.com" rfl
